import Mathlib

/-!
Verification of the session and access-control subsystem documented in
`src/unnamed/part_002` (Authentication & Security). The TypeScript there is
embedded shallowly: the in-memory `Map` cache and the database collection
become association lists keyed by session id, `Date` values become `Nat`
milliseconds, async calls become explicit state passing, and a throwing
`await` becomes an `Except` value threaded through the caller.
-/

namespace AuthCore

/-- Client-fingerprint metadata carried by a session. The interface at the
top of the source lists `ip`, `userAgent`, `lastActive`; `deviceId` is added
because `SessionSecurity.createSecureSession` stores it and
`SessionSecurity.validateSession` reads `session.metadata.deviceId`. -/
structure SessionMetadata where
  ip : String
  userAgent : String
  deviceId : String
  lastActive : Nat
deriving DecidableEq, Repr

/-- The `UserSession` interface from the source. Timestamps are `Nat`
milliseconds since the epoch. -/
structure Session where
  id : String
  userId : String
  token : String
  role : String
  permissions : List String
  createdAt : Nat
  expiresAt : Nat
  metadata : SessionMetadata
deriving DecidableEq, Repr

/-- A keyed store (the in-memory `Map` cache or the database collection),
embedded as an association list from session id to session. -/
abbrev StoreMap : Type := List (String × Session)

/-- Lookup by key, as `Map.get` / `collection.findOne({id})`. -/
def mapGet (m : StoreMap) (k : String) : Option Session :=
  (List.find? (fun p => p.1 == k) m).map Prod.snd

/-- Insert or overwrite a key, as `Map.set` / `collection.insertOne`. -/
def mapSet (m : StoreMap) (k : String) (s : Session) : StoreMap :=
  (k, s) :: List.filter (fun p => !(p.1 == k)) m

/-- Remove a key, as `Map.delete` / `collection.deleteOne`. -/
def mapDel (m : StoreMap) (k : String) : StoreMap :=
  List.filter (fun p => !(p.1 == k)) m

/-- The two stores of `sessionStore`: the in-memory cache and the durable
database collection. -/
structure SessionState where
  cache : StoreMap
  collection : StoreMap
deriving DecidableEq

/-- Modelled from the spec: `sessionStore.destroy` is called by `validate`,
the middleware and the cleanup job but is not defined under `src/`; section
4.1 of the spec describes it as "idempotent removal from cache and
repository; destroying a nonexistent session is a no-op, not an error". -/
def destroy (st : SessionState) (sessionId : String) : SessionState :=
  { cache := mapDel st.cache sessionId
    collection := mapDel st.collection sessionId }

/-- The session object built by `sessionStore.create` (source lines 38-51):
fresh `id` and `token` from the generators, `createdAt = now`,
`expiresAt = now + 24h`, metadata taken from the request with
`lastActive = now`. -/
def mkSession (userId : String) (role : String) (perms : List String)
    (id : String) (token : String) (meta : SessionMetadata) (now : Nat) :
    Session :=
  { id := id
    userId := userId
    token := token
    role := role
    permissions := perms
    createdAt := now
    expiresAt := now + 24 * 60 * 60 * 1000
    metadata := { meta with lastActive := now } }

/-- `sessionStore.create`: stores the new session in the cache, then awaits
the durable insert. `insertOk` injects the outcome of
`collection.insertOne`; when it fails the exception propagates with the
cache entry already in place (the source has no rollback). -/
def create (st : SessionState) (userId : String) (role : String)
    (perms : List String) (id : String) (token : String)
    (meta : SessionMetadata) (now : Nat) (insertOk : Bool) :
    Except String Session × SessionState :=
  let session := mkSession userId role perms id token meta now
  let st1 : SessionState := { st with cache := mapSet st.cache session.id session }
  if insertOk then
    (Except.ok session,
     { st1 with collection := mapSet st1.collection session.id session })
  else
    (Except.error "RepositoryError", st1)

/-- The continuation of `sessionStore.validate` after a cache miss: exactly
one repository read (`collection.findOne`), a cache fill on a hit, then the
expiry check `session.expiresAt < new Date()`. -/
def validateFromRepo (st : SessionState) (sessionId : String) (now : Nat) :
    Option Session × SessionState :=
  match mapGet st.collection sessionId with
  | some s =>
      let st1 : SessionState := { st with cache := mapSet st.cache sessionId s }
      if s.expiresAt < now then (none, destroy st1 sessionId)
      else (some s, st1)
  | none => (none, destroy st sessionId)

/-- `sessionStore.validate` (source lines 61-75): cache lookup; on a miss a
read-through against the collection; a session that is absent or has
`expiresAt < now` is destroyed and `null` is returned. -/
def validate (st : SessionState) (sessionId : String) (now : Nat) :
    Option Session × SessionState :=
  match mapGet st.cache sessionId with
  | some s =>
      if s.expiresAt < now then (none, destroy st sessionId)
      else (some s, st)
  | none => validateFromRepo st sessionId now

/-- A role with its permission set, as in `RoleManager`. -/
structure Role where
  id : String
  name : String
  permissions : List String
deriving DecidableEq, Repr

/-- Role lookup table of the role cache. -/
abbrev RoleMap : Type := List (String × Role)

/-- Lookup in the role table, as `cache.roles.get`. -/
def roleGet (m : RoleMap) (k : String) : Option Role :=
  (List.find? (fun p => p.1 == k) m).map Prod.snd

/-- The `RoleCache` of `RoleManager`: role table plus the `lastUpdated`
timestamp used for the 5-minute refresh window. -/
structure RoleCache where
  roles : RoleMap
  lastUpdated : Nat
deriving DecidableEq, Repr

/-- The table built by `loadRoles` from the repository listing: the cache is
cleared and every fetched role inserted under its id. -/
def rolesFromRepo (roles : List Role) : RoleMap :=
  List.foldl (fun m r => (r.id, r) :: m) [] roles

/-- `RoleManager.getRole` (source lines 106-113): when the cache is older
than 5 minutes, `loadRoles` is awaited first. `repoRoles` injects the
outcome of the `db.collection(roles).find().toArray()` read inside
`loadRoles`; when that read throws, the exception propagates out of
`getRole` before the cache is cleared, so the cache state is unchanged. -/
def getRole (rc : RoleCache) (roleId : String)
    (repoRoles : Except String (List Role)) (now : Nat) :
    Except String (Option Role) × RoleCache :=
  if 5 * 60 * 1000 < now - rc.lastUpdated then
    match repoRoles with
    | Except.error e => (Except.error e, rc)
    | Except.ok roles =>
        let rc2 : RoleCache := { roles := rolesFromRepo roles, lastUpdated := now }
        (Except.ok (roleGet rc2.roles roleId), rc2)
  else
    (Except.ok (roleGet rc.roles roleId), rc)

/-- `RoleManager.validatePermissions` (source lines 116-129). The source
resolves the caller's session through `sessionStore.getCurrentSession`,
which is not defined under `src/`; its result is passed in as `sess?`. A
missing session or role yields `false`; otherwise every required permission
is tested against the permissions of the role resolved from
`session.role`. -/
def validatePermissions (sess? : Option Session) (rc : RoleCache)
    (repoRoles : Except String (List Role)) (now : Nat)
    (requiredPermissions : List String) :
    Except String Bool × RoleCache :=
  match sess? with
  | none => (Except.ok false, rc)
  | some session =>
      match getRole rc session.role repoRoles now with
      | (Except.error e, rc2) => (Except.error e, rc2)
      | (Except.ok none, rc2) => (Except.ok false, rc2)
      | (Except.ok (some role), rc2) =>
          (Except.ok (List.all requiredPermissions
              (fun permission => List.contains role.permissions permission)), rc2)

/-- The client context of an incoming request, as read by
`SessionSecurity.validateSession`: `request.ip`, the user-agent header, and
the derived device id. -/
structure RequestContext where
  ip : String
  userAgent : String
  deviceId : String
deriving DecidableEq, Repr

/-- Modelled from the spec: `SessionSecurity.validateIP` is called but not
defined under `src/`; section 4.3 of the spec says the check compares the
current request ip against the bound metadata ip. -/
def validateIP (current : String) (bound : String) : Bool :=
  current == bound

/-- Modelled from the spec: `SessionSecurity.validateUserAgent` is called
but not defined under `src/`; it compares the current user-agent against
the bound one. -/
def validateUserAgent (current : String) (bound : String) : Bool :=
  current == bound

/-- Modelled from the spec: `SessionSecurity.validateDeviceId` is called
but not defined under `src/`; it compares the device id derived from the
request against the bound one. -/
def validateDeviceId (current : String) (bound : String) : Bool :=
  current == bound

/-- `SessionSecurity.validateSession` (source lines 164-185): validate the
session through the store; with no session the check fails; otherwise the
three security checks are collected in a list and all must be `true`. -/
def validateSessionSecurity (st : SessionState) (req : RequestContext)
    (sessionId : String) (now : Nat) : Bool × SessionState :=
  match validate st sessionId now with
  | (none, st1) => (false, st1)
  | (some session, st1) =>
      let securityChecks : List Bool :=
        [validateIP req.ip session.metadata.ip,
         validateUserAgent req.userAgent session.metadata.userAgent,
         validateDeviceId req.deviceId session.metadata.deviceId]
      (List.all securityChecks (fun check => check == true), st1)

/-- An audit record as emitted by `auditLogger.log`; optional fields cover
the two shapes in the source (`access` entries carry role, resource and
allowed; `session_expired` entries carry the session id). -/
structure AuditEntry where
  type : String
  userId : String
  role : Option String := none
  resource : Option String := none
  allowed : Option Bool := none
  sessionId : Option String := none
deriving DecidableEq, Repr

/-- Outcome of the route guard: 401, 403, or pass-through to the handler. -/
inductive GuardOutcome where
  | unauthorized
  | forbidden
  | next
deriving DecidableEq, Repr

/-- `withRoles` (source lines 262-294): 401 with no session, 403 when the
session role is not in the allowed list, and only on the pass-through path
one `access` audit entry with `allowed: true` is logged. The returned list
holds the entries emitted by the call. -/
def withRoles (roles : List String) (sess? : Option Session) (url : String) :
    GuardOutcome × List AuditEntry :=
  match sess? with
  | none => (GuardOutcome.unauthorized, [])
  | some session =>
      if List.contains roles session.role then
        (GuardOutcome.next,
         [{ type := "access", userId := session.userId,
            role := some session.role, resource := some url,
            allowed := some true }])
      else (GuardOutcome.forbidden, [])

/-- The expired-session query of the cleanup job:
`collection.find({expiresAt: {$lt: now}})`. -/
def findExpired (st : SessionState) (now : Nat) : List Session :=
  List.map Prod.snd (List.filter (fun p => p.2.expiresAt < now) st.collection)

/-- The `for` loop of `cleanupSessions`: each candidate is destroyed and
audited in turn. `failing` injects which `destroy` calls throw; the loop
has no try/catch, so a throw aborts the remainder of the batch. The `Bool`
records whether the batch ran to completion. -/
def sweepLoop (st : SessionState) (candidates : List Session)
    (failing : List String) (audit : List AuditEntry) :
    SessionState × List AuditEntry × Bool :=
  match candidates with
  | [] => (st, audit, true)
  | s :: rest =>
      if List.contains failing s.id then (st, audit, false)
      else
        sweepLoop (destroy st s.id) rest failing
          (audit ++ [{ type := "session_expired", userId := s.userId,
                       sessionId := some s.id }])

/-- `cleanupSessions` (source lines 343-356): query the expired sessions,
then destroy and audit each one. -/
def cleanupSessions (st : SessionState) (now : Nat) (failing : List String) :
    SessionState × List AuditEntry × Bool :=
  sweepLoop st (findExpired st now) failing []

/-- Repository reads performed by one `validate` caller given the result of
its cache lookup: the only `findOne` in `validate` sits on the cache-miss
path of `validateFromRepo`, so a caller reads the repository exactly once
on a miss and never on a hit. -/
def repoReadsAfterLookup (cached : Option Session) : Nat :=
  match cached with
  | some _ => 0
  | none => 1

/-- Two concurrent `validate` calls for the same session id, under the
event-loop schedule in which both callers perform their synchronous cache
lookup before either resumes from an awaited repository read: on a shared
cache hit neither touches the repository; on a shared miss each caller
falls through to its own `collection.findOne` (the source has no
single-flight), caller A completing before caller B. The final `Nat`
counts the repository reads performed across both callers. -/
def twoConcurrentValidates (st : SessionState) (sessionId : String)
    (now : Nat) : Option Session × Option Session × SessionState × Nat :=
  let lookupA := mapGet st.cache sessionId
  let lookupB := mapGet st.cache sessionId
  let reads := repoReadsAfterLookup lookupA + repoReadsAfterLookup lookupB
  match lookupA with
  | some s =>
      let a := if s.expiresAt < now then (none, destroy st sessionId)
               else (some s, st)
      let b := if s.expiresAt < now then (none, destroy a.2 sessionId)
               else (some s, a.2)
      (a.1, b.1, b.2, reads)
  | none =>
      let a := validateFromRepo st sessionId now
      let b := validateFromRepo a.2 sessionId now
      (a.1, b.1, b.2, reads)

/-! ### Basic lemmas about the store maps -/

theorem find?_filter_out (m : StoreMap) (k : String) :
    List.find? (fun p => p.1 == k) (List.filter (fun p => !(p.1 == k)) m) = none := by
  induction m with
  | nil => rfl
  | cons a t ih =>
      cases hb : a.1 == k with
      | true => simp [List.filter_cons, hb, ih]
      | false => simp [List.filter_cons, List.find?, hb, ih]

theorem mapGet_mapDel_self (m : StoreMap) (k : String) :
    mapGet (mapDel m k) k = none := by
  simp [mapGet, mapDel, find?_filter_out]

theorem mapGet_mapSet_self (m : StoreMap) (k : String) (s : Session) :
    mapGet (mapSet m k s) k = some s := by
  simp [mapGet, mapSet, List.find?]

theorem mapDel_of_absent (m : StoreMap) (k : String) (h : mapGet m k = none) :
    mapDel m k = m := by
  have hfind : List.find? (fun p => p.1 == k) m = none := by
    cases hf : List.find? (fun p => p.1 == k) m with
    | none => rfl
    | some p => rw [mapGet, hf] at h; simp at h
  refine List.filter_eq_self.mpr ?_
  intro p hp
  have := List.find?_eq_none.mp hfind p hp
  simp_all

theorem destroy_absent_after (st : SessionState) (sid : String) :
    mapGet (destroy st sid).cache sid = none ∧
    mapGet (destroy st sid).collection sid = none :=
  ⟨mapGet_mapDel_self st.cache sid, mapGet_mapDel_self st.collection sid⟩

theorem validate_absent (st : SessionState) (sid : String) (now : Nat)
    (h1 : mapGet st.cache sid = none) (h2 : mapGet st.collection sid = none) :
    (validate st sid now).1 = none := by
  simp [validate, validateFromRepo, h1, h2]

/-! ### Concrete fixtures used by counterexamples and witnesses -/

/-- A fixed client fingerprint. -/
def metaW : SessionMetadata :=
  { ip := "1.1.1.1", userAgent := "agentA", deviceId := "devA", lastActive := 0 }

/-- A session expiring at t = 1000. -/
def sB : Session :=
  { id := "s1", userId := "u1", token := "t1", role := "admin",
    permissions := ["read"], createdAt := 0, expiresAt := 1000, metadata := metaW }

/-- A store holding `sB` in both the cache and the collection. -/
def stB : SessionState := { cache := [("s1", sB)], collection := [("s1", sB)] }

/-- A store in which `sB` is durable but not cached. -/
def stMiss : SessionState := { cache := [], collection := [("s1", sB)] }

/-! ### C1: expiry boundary in validate -/

/-- C1 counterexample: the claim says `validate(s.id)` returns `NotFound`
already at the boundary instant `now = s.expiresAt`, but the source tests
`session.expiresAt < new Date()` strictly, so at `now = 1000 = sB.expiresAt`
the session is still returned and nothing is destroyed. -/
theorem validate_boundary_counterexample :
    sB.expiresAt ≤ 1000 ∧ validate stB "s1" 1000 = (some sB, stB) :=
  ⟨by decide, rfl⟩

/-- C1 (amended): for every session reachable from the cache or the
collection, once `now > s.expiresAt` strictly, `validate` returns `NotFound`,
the session is removed from both stores, and every subsequent `validate` of
that id returns `NotFound` as well. -/
theorem validate_expired_strict (st : SessionState) (sid : String)
    (s : Session) (now now2 : Nat)
    (hfound : mapGet st.cache sid = some s ∨
      (mapGet st.cache sid = none ∧ mapGet st.collection sid = some s))
    (hexp : s.expiresAt < now) :
    (validate st sid now).1 = none ∧
    mapGet (validate st sid now).2.cache sid = none ∧
    mapGet (validate st sid now).2.collection sid = none ∧
    (validate (validate st sid now).2 sid now2).1 = none := by
  have key : ∃ st0 : SessionState, validate st sid now = (none, destroy st0 sid) := by
    rcases hfound with h | ⟨h1, h2⟩
    · exact ⟨st, by simp [validate, h, hexp]⟩
    · exact ⟨{ st with cache := mapSet st.cache sid s },
        by simp [validate, validateFromRepo, h1, h2, hexp]⟩
  rcases key with ⟨st0, heq⟩
  rw [heq]
  rcases destroy_absent_after st0 sid with ⟨hc, hcol⟩
  exact ⟨rfl, hc, hcol, validate_absent _ sid now2 hc hcol⟩

/-- C1 witness: the expired-session theorem applied to the concrete store
`stB` at `now = 1001 > 1000 = sB.expiresAt`, with a later call at 2000. -/
theorem validate_expired_strict_witness :
    (validate stB "s1" 1001).1 = none ∧
    mapGet (validate stB "s1" 1001).2.cache "s1" = none ∧
    mapGet (validate stB "s1" 1001).2.collection "s1" = none ∧
    (validate (validate stB "s1" 1001).2 "s1" 2000).1 = none :=
  validate_expired_strict stB "s1" sB 1001 2000 (Or.inl rfl) (by decide)

/-! ### C3: failed durable write during create -/

/-- C3 counterexample: the claim says a failed durable write rolls the cache
entry back so that neither store contains the session; in the source the
cache is written first and nothing is rolled back when `insertOne` throws,
so after the failure the cache still holds the new session. -/
theorem create_no_rollback_counterexample :
    (create { cache := [], collection := [] } "u1" "admin" ["read"]
        "sid1" "tok1" metaW 0 false).1 = Except.error "RepositoryError" ∧
    mapGet (create { cache := [], collection := [] } "u1" "admin" ["read"]
        "sid1" "tok1" metaW 0 false).2.cache "sid1" =
      some (mkSession "u1" "admin" ["read"] "sid1" "tok1" metaW 0) ∧
    mapGet (create { cache := [], collection := [] } "u1" "admin" ["read"]
        "sid1" "tok1" metaW 0 false).2.collection "sid1" = none :=
  ⟨rfl, rfl, rfl⟩

/-- C3 (amended): when the durable write fails, `create` fails with
`RepositoryError`, but the cache entry is NOT rolled back: the cache holds
the new session while the collection is exactly as before, so the two
stores diverge on a failed create. -/
theorem create_failure_leaves_cache (st : SessionState) (uid role : String)
    (perms : List String) (id tok : String) (meta : SessionMetadata)
    (now : Nat) :
    (create st uid role perms id tok meta now false).1 =
      Except.error "RepositoryError" ∧
    mapGet (create st uid role perms id tok meta now false).2.cache id =
      some (mkSession uid role perms id tok meta now) ∧
    (create st uid role perms id tok meta now false).2.collection =
      st.collection :=
  ⟨rfl, mapGet_mapSet_self st.cache id (mkSession uid role perms id tok meta now), rfl⟩

/-! ### C9: destroy is idempotent -/

/-- C9: `destroy` (modelled from the spec, not defined under `src/`) is
idempotent — a second `destroy` of the same id leaves the state exactly as
after the first — and destroying an id present in neither store is a no-op
that leaves the state unchanged. -/
theorem destroy_idempotent (st : SessionState) (sid : String) :
    destroy (destroy st sid) sid = destroy st sid ∧
    (mapGet st.cache sid = none → mapGet st.collection sid = none →
      destroy st sid = st) := by
  constructor
  · simp [destroy, mapDel, List.filter_filter]
  · intro h1 h2
    cases st with
    | mk cache collection =>
        simp only [destroy]
        rw [mapDel_of_absent _ _ h1, mapDel_of_absent _ _ h2]

/-- C9 witness: double destruction of `sB` collapses to a single one, and
destroying an id absent from the empty store leaves it untouched. -/
theorem destroy_idempotent_witness :
    destroy (destroy stB "s1") "s1" = destroy stB "s1" ∧
    destroy { cache := [], collection := [] } "zz" =
      { cache := [], collection := [] } :=
  ⟨(destroy_idempotent stB "s1").1,
   (destroy_idempotent { cache := [], collection := [] } "zz").2 rfl rfl⟩

/-! ### C2 and C10: permission checks -/

/-- A role carrying no permissions at all. -/
def roleR0 : Role := { id := "r1", name := "nothing", permissions := [] }

/-- A role granting exactly the `read` permission. -/
def roleR1 : Role := { id := "r2", name := "reader", permissions := ["read"] }

/-- A fresh role cache holding only `roleR0`. -/
def rcP : RoleCache := { roles := [("r1", roleR0)], lastUpdated := 0 }

/-- A fresh role cache holding only `roleR1`. -/
def rcR : RoleCache := { roles := [("r2", roleR1)], lastUpdated := 0 }

/-- A session whose own permission snapshot grants `read` but whose role
resolves to `roleR0`, which grants nothing. -/
def sP : Session :=
  { id := "s2", userId := "u2", token := "t2", role := "r1",
    permissions := ["read"], createdAt := 0, expiresAt := 1000,
    metadata := metaW }

/-- A session whose role resolves to `roleR1`. -/
def sR : Session :=
  { id := "s3", userId := "u3", token := "t3", role := "r2",
    permissions := ["read"], createdAt := 0, expiresAt := 1000,
    metadata := metaW }

/-- C2 counterexample: the claim says the check is a subset test against the
SESSION'S granted permission set, but `validatePermissions` tests against
the permissions of the role resolved from `session.role`. For `sP` the
required set `[read]` is contained in `sP.permissions`, yet the check
answers `false` because the resolved role `roleR0` grants nothing. -/
theorem validatePermissions_counterexample :
    List.contains sP.permissions "read" = true ∧
    (validatePermissions (some sP) rcP (Except.ok []) 0 ["read"]).1 =
      Except.ok false :=
  ⟨rfl, rfl⟩

/-- C2 (amended): whenever the session resolves (through the role cache) to
a role `r`, the check answers exactly the subset test of the required
permissions against `r.permissions` — the ROLE'S permission set, not the
session's own snapshot — so a session whose role grants exactly `read` is
denied a request requiring `read` and `write`. -/
theorem validatePermissions_role_subset (s : Session) (rc : RoleCache)
    (repo : Except String (List Role)) (now : Nat) (req : List String)
    (r : Role) (rc2 : RoleCache)
    (hrole : getRole rc s.role repo now = (Except.ok (some r), rc2)) :
    (validatePermissions (some s) rc repo now req).1 =
      Except.ok (List.all req (fun p => List.contains r.permissions p)) ∧
    (List.all req (fun p => List.contains r.permissions p) = true ↔
      ∀ p ∈ req, p ∈ r.permissions) := by
  constructor
  · simp [validatePermissions, hrole]
  · simp [List.all_eq_true]

/-- C2 witness: for the concrete session `sR`, whose role grants exactly
`read`, requiring `read` and `write` evaluates the subset test, which is
false since `write` is not among the role's permissions. -/
theorem validatePermissions_role_subset_witness :
    ((validatePermissions (some sR) rcR (Except.ok []) 0 ["read", "write"]).1 =
      Except.ok (List.all ["read", "write"]
        (fun p => List.contains roleR1.permissions p))) ∧
    (List.all ["read", "write"] (fun p => List.contains roleR1.permissions p) = true ↔
      ∀ p ∈ ["read", "write"], p ∈ roleR1.permissions) :=
  validatePermissions_role_subset sR rcR (Except.ok []) 0 ["read", "write"]
    roleR1 rcR rfl

/-- C10: with an empty list of required permissions the universally
quantified subset test in `validatePermissions` is vacuously satisfied, so
any session that resolves to a known role is allowed. -/
theorem validatePermissions_empty_allows (s : Session) (rc : RoleCache)
    (repo : Except String (List Role)) (now : Nat) (r : Role)
    (rc2 : RoleCache)
    (hrole : getRole rc s.role repo now = (Except.ok (some r), rc2)) :
    (validatePermissions (some s) rc repo now []).1 = Except.ok true := by
  simp [validatePermissions, hrole]

/-- C10 witness: the empty requirement allows the concrete session `sR`,
whose role resolves to `roleR1`. -/
theorem validatePermissions_empty_allows_witness :
    (validatePermissions (some sR) rcR (Except.ok []) 0 []).1 =
      Except.ok true :=
  validatePermissions_empty_allows sR rcR (Except.ok []) 0 roleR1 rcR rfl

/-! ### C4: the three security checks -/

/-- C4: for a session found by `validate`, the security check of
`SessionSecurity.validateSession` passes exactly when all three comparisons
pass — the request ip, user-agent and device id each equal the bound
metadata — so any single mismatch (in particular exactly one differing
field) makes the check fail. -/
theorem validateSessionSecurity_all_three (st : SessionState)
    (req : RequestContext) (sid : String) (now : Nat) (s : Session)
    (st1 : SessionState) (hval : validate st sid now = (some s, st1)) :
    ((validateSessionSecurity st req sid now).1 = true ↔
      (req.ip = s.metadata.ip ∧ req.userAgent = s.metadata.userAgent ∧
       req.deviceId = s.metadata.deviceId)) := by
  simp [validateSessionSecurity, hval, validateIP, validateUserAgent,
    validateDeviceId, List.all]

/-- C4 witness: the three-way characterisation applied to the concrete
store `stB`; with a request differing from the bound metadata only in the
ip, the right-hand side is false, hence the check fails. -/
theorem validateSessionSecurity_all_three_witness :
    ((validateSessionSecurity stB
        { ip := "2.2.2.2", userAgent := "agentA", deviceId := "devA" }
        "s1" 500).1 = true ↔
      (("2.2.2.2" : String) = sB.metadata.ip ∧
       ("agentA" : String) = sB.metadata.userAgent ∧
       ("devA" : String) = sB.metadata.deviceId)) :=
  validateSessionSecurity_all_three stB
    { ip := "2.2.2.2", userAgent := "agentA", deviceId := "devA" }
    "s1" 500 sB stB rfl

/-! ### C5: audit emission in the route guard -/

/-- C5 counterexample: the claim says every decision, allowed or denied,
emits exactly one `access` audit entry; in the source the denial paths
return before `auditLogger.log` is reached, so a forbidden decision emits
no entry at all. -/
theorem withRoles_denied_no_audit_counterexample :
    (withRoles ["enterprise_admin"] (some sB) "/admin").1 =
      GuardOutcome.forbidden ∧
    (withRoles ["enterprise_admin"] (some sB) "/admin").2 = [] :=
  ⟨rfl, rfl⟩

/-- C5 (amended): only the allowed path of `withRoles` emits an audit
entry — exactly one, of type `access` with `allowed = true`; the forbidden
and unauthorized paths emit none. -/
theorem withRoles_audit_only_on_allow (roles : List String) (s : Session)
    (url : String) :
    (List.contains roles s.role = true →
      withRoles roles (some s) url =
        (GuardOutcome.next,
         [{ type := "access", userId := s.userId, role := some s.role,
            resource := some url, allowed := some true }])) ∧
    (List.contains roles s.role = false →
      withRoles roles (some s) url = (GuardOutcome.forbidden, [])) ∧
    withRoles roles none url = (GuardOutcome.unauthorized, []) := by
  refine ⟨fun h => ?_, fun h => ?_, rfl⟩
  · have hm : s.role ∈ roles := by simpa using h
    simp [withRoles, hm]
  · have hm : s.role ∉ roles := by simpa using h
    simp [withRoles, hm]

/-- C5 witness: the audit characterisation applied to `sB`, allowed under
the role list `[admin]` and denied under `[viewer]`. -/
theorem withRoles_audit_only_on_allow_witness :
    withRoles ["admin"] (some sB) "/r" =
      (GuardOutcome.next,
       [{ type := "access", userId := sB.userId, role := some sB.role,
          resource := some "/r", allowed := some true }]) ∧
    withRoles ["viewer"] (some sB) "/r" = (GuardOutcome.forbidden, []) :=
  ⟨(withRoles_audit_only_on_allow ["admin"] sB "/r").1 rfl,
   (withRoles_audit_only_on_allow ["viewer"] sB "/r").2.1 rfl⟩

/-! ### C6: role-cache reload failure -/

/-- A role cache holding `roleR1` whose last load is stale at `t = 600000`
(ten minutes, beyond the five-minute refresh window). -/
def rcStale : RoleCache := { roles := [("r2", roleR1)], lastUpdated := 0 }

/-- C6 counterexample: the claim says a failed reload makes `getRole`
answer from the existing (stale) cache; in the source the exception from
the repository read propagates out of `getRole`, so even though `roleR1` is
sitting in the cache, the call produces the error instead of the role. -/
theorem getRole_stale_failure_counterexample :
    roleGet rcStale.roles "r2" = some roleR1 ∧
    (getRole rcStale "r2" (Except.error "db down") 600000).1 =
      Except.error "db down" :=
  ⟨rfl, rfl⟩

/-- C6 (amended): when the cache is stale and the reload fails, the cached
role snapshots are left in place completely unchanged (the exception fires
before the cache is cleared) and `lastUpdated` is not advanced, so the next
call retries the reload — but the failing call itself propagates the error
rather than answering from the stale cache. -/
theorem getRole_reload_failure (rc : RoleCache) (roleId e : String)
    (now : Nat) (hstale : 5 * 60 * 1000 < now - rc.lastUpdated) :
    getRole rc roleId (Except.error e) now = (Except.error e, rc) ∧
    (∀ roles2, (getRole rc roleId (Except.ok roles2) now).2.lastUpdated = now) := by
  constructor
  · simp [getRole, hstale]
  · intro roles2
    simp [getRole, hstale]

/-- C6 witness: the reload-failure theorem applied to the concrete stale
cache `rcStale` at `t = 600000`, with the retry conjunct instantiated at an
empty repository listing. -/
theorem getRole_reload_failure_witness :
    getRole rcStale "r2" (Except.error "db down") 600000 =
      (Except.error "db down", rcStale) ∧
    (getRole rcStale "r2" (Except.ok []) 600000).2.lastUpdated = 600000 :=
  ⟨(getRole_reload_failure rcStale "r2" "db down" 600000 (by decide)).1,
   (getRole_reload_failure rcStale "r2" "db down" 600000 (by decide)).2 []⟩

/-! ### C7: no single-flight on concurrent validate -/

/-- C7 counterexample: the claim says two concurrent `validate` calls for
the same uncached id trigger exactly one repository `get`; under the
interleaving in which both callers miss the cache before either fills it,
each issues its own `findOne`, so two reads occur even though both callers
obtain the session. -/
theorem concurrent_validate_two_reads_counterexample :
    (twoConcurrentValidates stMiss "s1" 500).1 = some sB ∧
    (twoConcurrentValidates stMiss "s1" 500).2.1 = some sB ∧
    (twoConcurrentValidates stMiss "s1" 500).2.2.2 = 2 :=
  ⟨rfl, rfl, rfl⟩

/-- C7 (amended): `validate` performs a plain read-through with no
single-flight: for any state in which the id is uncached but durable and
unexpired, the schedule where both callers look up the cache before either
resumes from its repository read yields two repository reads — one per
caller — although both callers return the same session. -/
theorem twoConcurrentValidates_no_single_flight (st : SessionState)
    (sid : String) (now : Nat) (s : Session)
    (hmiss : mapGet st.cache sid = none)
    (hrepo : mapGet st.collection sid = some s)
    (hlive : ¬ s.expiresAt < now) :
    (twoConcurrentValidates st sid now).1 = some s ∧
    (twoConcurrentValidates st sid now).2.1 = some s ∧
    (twoConcurrentValidates st sid now).2.2.2 = 2 := by
  have ha : validateFromRepo st sid now =
      (some s, { st with cache := mapSet st.cache sid s }) := by
    simp [validateFromRepo, hrepo, hlive]
  have hb : validateFromRepo { st with cache := mapSet st.cache sid s } sid now =
      (some s, { st with cache := mapSet (mapSet st.cache sid s) sid s }) := by
    simp [validateFromRepo, hrepo, hlive]
  simp [twoConcurrentValidates, hmiss, ha, hb, repoReadsAfterLookup]

/-- C7 witness: the no-single-flight theorem applied to the concrete store
`stMiss`, in which `sB` is durable but uncached and unexpired at 500. -/
theorem twoConcurrentValidates_no_single_flight_witness :
    (twoConcurrentValidates stMiss "s1" 500).1 = some sB ∧
    (twoConcurrentValidates stMiss "s1" 500).2.1 = some sB ∧
    (twoConcurrentValidates stMiss "s1" 500).2.2.2 = 2 :=
  twoConcurrentValidates_no_single_flight stMiss "s1" 500 sB rfl rfl (by decide)

/-! ### C8: a sweep failure aborts the batch -/

/-- An expired session used as the first sweep candidate. -/
def s1C : Session :=
  { id := "e1", userId := "u4", token := "t4", role := "user",
    permissions := [], createdAt := 0, expiresAt := 10, metadata := metaW }

/-- An expired session used as the second sweep candidate. -/
def s2C : Session :=
  { id := "e2", userId := "u5", token := "t5", role := "user",
    permissions := [], createdAt := 0, expiresAt := 20, metadata := metaW }

/-- A store whose collection holds the two expired sessions. -/
def stSweep : SessionState :=
  { cache := [], collection := [("e1", s1C), ("e2", s2C)] }

/-- C8 counterexample: the claim says a failure while destroying one
session still lets every other candidate be processed; in the source the
loop has no try/catch, so when destroying `s1C` throws, the sweep stops:
nothing was audited and the other expired candidate `s2C` is still in the
collection. -/
theorem cleanup_abort_counterexample :
    s2C.expiresAt < 1000 ∧
    cleanupSessions stSweep 1000 ["e1"] = (stSweep, [], false) ∧
    mapGet (cleanupSessions stSweep 1000 ["e1"]).1.collection "e2" = some s2C :=
  ⟨by decide, rfl, rfl⟩

/-- C8 (amended): the sweep is NOT partial-failure tolerant: a failing
destruction aborts the batch on the spot, leaving the state and audit log
as they were at that point and the remaining candidates unprocessed; only
a sweep in which no destruction fails runs to completion. -/
theorem sweep_aborts_on_failure (st : SessionState) (s : Session)
    (rest : List Session) (failing : List String) (audit : List AuditEntry)
    (hfail : List.contains failing s.id = true) :
    sweepLoop st (s :: rest) failing audit = (st, audit, false) ∧
    (∀ st2 l audit2, (sweepLoop st2 l [] audit2).2.2 = true) := by
  constructor
  · have hm : s.id ∈ failing := by simpa using hfail
    simp [sweepLoop, hm]
  · intro st2 l
    induction l generalizing st2 with
    | nil => intro audit2; rfl
    | cons a t ih => intro audit2; simpa [sweepLoop] using ih _ _

/-- C8 witness: the abort theorem applied to the concrete sweep over
`[s1C, s2C]` with `s1C`'s destruction failing, plus the completion conjunct
on the singleton batch `[s2C]` where nothing fails. -/
theorem sweep_aborts_on_failure_witness :
    sweepLoop stSweep (s1C :: [s2C]) ["e1"] [] = (stSweep, [], false) ∧
    (sweepLoop stSweep [s2C] [] []).2.2 = true :=
  ⟨(sweep_aborts_on_failure stSweep s1C [s2C] ["e1"] [] rfl).1,
   (sweep_aborts_on_failure stSweep s1C [s2C] ["e1"] [] rfl).2 stSweep [s2C] []⟩

end AuthCore

